import Mathlib

/-!
Shallow embedding of the strmctrl device protocol layer (Go package `strmctrl`):
the raw-report decoder (`newEvent`, `newPressEvent`, `newRotateEvent`), the
command-framing encoder (`sendCRTCommand`), the image-transfer sub-protocol
(`sendImage`, `SetImage`, `SetImages`), and the per-report step of the polling
task (`ReadEvents`). The USB outbound endpoint is modelled as an explicit
state (`DevState`) recording the sequence of attempted writes together with a
behaviour oracle that says, for each write, whether the transport accepts all
bytes, fails, or performs a short write.
-/

set_option autoImplicit false

namespace Strmctrl

/-- Width and height in pixels of the quadratic display images (Go `ImageSize`). -/
def ImageSize : Nat := 64

/-- Logical control values. Go declares `type Control uint8` with twelve named
constants starting at `iota + 1`; we model the carrier as `Nat`. -/
abbrev Control := Nat

def DisplayTopLeft : Control := 1
def DisplayTopCenter : Control := 2
def DisplayTopRight : Control := 3
def DisplayBottomLeft : Control := 4
def DisplayBottomCenter : Control := 5
def DisplayBottomRight : Control := 6
def ButtonLeft : Control := 7
def ButtonCenter : Control := 8
def ButtonRight : Control := 9
def KnobTop : Control := 10
def KnobBottomLeft : Control := 11
def KnobBottomRight : Control := 12

/-- Go `func (c Control) IsDisplay() bool`. -/
def Control.IsDisplay (c : Control) : Bool :=
  decide (DisplayTopLeft ≤ c ∧ c ≤ DisplayBottomRight)

/-- Go `func (c Control) IsButton() bool`. -/
def Control.IsButton (c : Control) : Bool :=
  decide (ButtonLeft ≤ c ∧ c ≤ ButtonRight)

/-- Go `func (c Control) IsKnob() bool`. -/
def Control.IsKnob (c : Control) : Bool :=
  decide (KnobTop ≤ c ∧ c ≤ KnobBottomRight)

/-- Action values of package version `part_000`: `Released=0, Pressed=1,
TurnedCW=2, TurnedCCW=3` (`type Action uint8`, `iota`). -/
abbrev Action := Nat

def Released : Action := 0
def Pressed : Action := 1
def TurnedCW : Action := 2
def TurnedCCW : Action := 3

/-- Go `type Event struct { Control Control; Action Action }`. -/
structure Event where
  control : Control
  action : Action
deriving DecidableEq, Repr

/-- Raw hardware control codes (`type hwControl uint8` constants). -/
def displayTopLeft : Nat := 0x01
def displayTopCenter : Nat := 0x02
def displayTopRight : Nat := 0x03
def displayBottomLeft : Nat := 0x04
def displayBottomCenter : Nat := 0x05
def displayBottomRight : Nat := 0x06
def buttonLeft : Nat := 0x25
def buttonCenter : Nat := 0x30
def buttonRight : Nat := 0x31
def knobTop : Nat := 0x35
def knobBottomLeft : Nat := 0x33
def knobBottomRight : Nat := 0x34
def knobTopCW : Nat := 0x51
def knobTopCCW : Nat := 0x50
def knobBottomLeftCW : Nat := 0x91
def knobBottomLeftCCW : Nat := 0x90
def knobBottomRightCW : Nat := 0x61
def knobBottomRightCCW : Nat := 0x60

/-- Decoding error. Go `newEvent` returns
`fmt.Errorf("unknown hw control: 0x%02x state: 0x%02x", control, state)` on the
default branch; the spec taxonomy calls this `UnknownControl`. -/
inductive DecodeError where
  | unknownControl (control state : Nat)
deriving DecidableEq, Repr

/-- Go `newPressEvent(control Control, state uint8)`: the raw state byte is
cast to an `Action` literally (`Action(state)`), with no inversion. -/
def newPressEvent (control : Control) (state : Nat) : Except DecodeError Event :=
  .ok { control := control, action := state }

/-- Go `newRotateEvent(control Control, hwcontrol hwControl)`: clockwise when
the raw code is odd, counter-clockwise when even; the state byte is unused. -/
def newRotateEvent (control : Control) (hwcontrol : Nat) : Except DecodeError Event :=
  .ok { control := control,
        action := if hwcontrol % 2 = 1 then TurnedCW else TurnedCCW }

/-- Go `newEvent(control hwControl, state uint8)`: the switch over the raw
control code. Display codes `0x01..0x06` are cast numerically to `Control`. -/
def newEvent (control state : Nat) : Except DecodeError Event :=
  if displayTopLeft ≤ control ∧ control ≤ displayBottomRight then
    newPressEvent control state
  else if control = buttonLeft then newPressEvent ButtonLeft state
  else if control = buttonCenter then newPressEvent ButtonCenter state
  else if control = buttonRight then newPressEvent ButtonRight state
  else if control = knobTop then newPressEvent KnobTop state
  else if control = knobBottomLeft then newPressEvent KnobBottomLeft state
  else if control = knobBottomRight then newPressEvent KnobBottomRight state
  else if control = knobTopCW ∨ control = knobTopCCW then
    newRotateEvent KnobTop control
  else if control = knobBottomLeftCW ∨ control = knobBottomLeftCCW then
    newRotateEvent KnobBottomLeft control
  else if control = knobBottomRightCW ∨ control = knobBottomRightCCW then
    newRotateEvent KnobBottomRight control
  else .error (.unknownControl control state)

/-- Per-report step of the polling goroutine in Go `ReadEvents` (lines 345-349):
`event, err := newEvent(hwControl(buf[9]), buf[10]); if err == nil { events <- event }`.
A failed decode is dropped: no event is delivered for that report. -/
def readEventsStep (rawCode rawState : Nat) : Option Event :=
  match newEvent rawCode rawState with
  | .ok e => some e
  | .error _ => none

/-- The raw control codes `newEvent` recognizes. -/
def knownHwControlCodes : List Nat :=
  [0x01, 0x02, 0x03, 0x04, 0x05, 0x06, 0x25, 0x30, 0x31, 0x33, 0x34, 0x35,
   0x50, 0x51, 0x60, 0x61, 0x90, 0x91]

/-- Behaviour of the outbound endpoint on one `WriteContext` call: accept all
bytes, fail with a transport error, or report a short write of `n` bytes. -/
inductive WriteBehavior where
  | accept
  | fail
  | short (n : Nat)
deriving DecidableEq, Repr

/-- Explicit state of the outbound endpoint: a behaviour oracle indexed by the
write counter, the counter itself, and the trace of attempted writes (each
entry is the byte sequence passed to `WriteContext`). -/
structure DevState where
  oracle : Nat → WriteBehavior
  idx : Nat
  trace : List (List Nat)

/-- Model of `d.epOut.WriteContext(ctx, buf)`: records the attempted write and
returns `some n` (bytes written) or `none` (transport error) as dictated by
the oracle. -/
def writeContext (buf : List Nat) (s : DevState) : Option Nat × DevState :=
  let r := match s.oracle s.idx with
    | .accept => some buf.length
    | .fail => none
    | .short n => some n
  (r, { s with idx := s.idx + 1, trace := s.trace ++ [buf] })

/-- Initial device state whose oracle accepts every write in full. -/
def initState : DevState :=
  { oracle := fun _ => .accept, idx := 0, trace := [] }

/-- Errors of the command/image send paths. Go uses `fmt.Errorf`; the spec
taxonomy names them `TransferFailed`, `ShortWrite`, `InvalidImageSize`, and
the not-a-display rejection of `SetImage`. -/
inductive CmdError where
  | transportError
  | shortWrite (n expected : Nat)
  | invalidImageSize
  | notADisplay (control : Nat)
deriving DecidableEq, Repr

/-- ASCII bytes of the command name "CLE". -/
def cmdCLE : List Nat := [0x43, 0x4C, 0x45]

/-- ASCII bytes of the command name "STP". -/
def cmdSTP : List Nat := [0x53, 0x54, 0x50]

/-- ASCII bytes of the command name "BAT". -/
def cmdBAT : List Nat := [0x42, 0x41, 0x54]

/-- The bytes `sendCRTCommand` places in the outbound buffer: Go builds
`cmdBytes = "CRT" ++ [0,0] ++ cmd ++ [0,0] ++ args`, allocates
`outbuf := make([]byte, MaxPacketSize)` and does `copy(outbuf, cmdBytes)`,
which copies `min(len(cmdBytes), MaxPacketSize)` bytes and leaves the rest of
`outbuf` zero. -/
def sendCRTCommandPacket (maxPacketSize : Nat) (cmd args : List Nat) : List Nat :=
  ([0x43, 0x52, 0x54] ++ [0, 0] ++ cmd ++ [0, 0] ++ args).take maxPacketSize ++
    List.replicate
      (maxPacketSize - ([0x43, 0x52, 0x54] ++ [0, 0] ++ cmd ++ [0, 0] ++ args).length) 0

/-- Go `sendCRTCommand` (lines 459-481): frame the command, write the padded
buffer, surface a transport error, and report a short write when fewer than
`len(outbuf)` bytes were written. There is no size check on the framed bytes. -/
def sendCRTCommand (maxPacketSize : Nat) (cmd args : List Nat) (s : DevState) :
    Except CmdError Unit × DevState :=
  let outbuf := sendCRTCommandPacket maxPacketSize cmd args
  match writeContext outbuf s with
  | (none, s') => (.error .transportError, s')
  | (some n, s') =>
      if n < outbuf.length then (.error (.shortWrite n outbuf.length), s')
      else (.ok (), s')

/-- Image model. Go passes an `image.Image`; `sendImage` reads only
`img.Bounds().Max.X` and `img.Bounds().Max.Y` (integers, with `Bounds().Min`
the other corner of the rectangle, so the pixel dimensions are
`Max.X - Min.X` by `Max.Y - Min.Y`). Modelled from the spec: the external
JPEG codec ("encode a 64×64 pixel image to a byte sequence at maximum
quality") is out of scope, so the compressed byte sequence is carried as an
opaque attribute of the image value. -/
structure Image where
  boundsMinX : Int
  boundsMinY : Int
  boundsMaxX : Int
  boundsMaxY : Int
  jpeg : List Nat
deriving DecidableEq, Repr

/-- Model of Go `toJPEG`: returns the codec's compressed bytes. -/
def toJPEG (img : Image) : List Nat := img.jpeg

/-- Go `sendImage` (lines 483-513): reject when `Bounds().Max` is not
(64, 64); compress; truncate the length to `uint16`
(`imageSize := uint16(len(jpg))`); send the `BAT` command with the size high
byte (`imageSize >> 8`), size low byte (`imageSize & 0x00ff`) and the slot
index; then write the payload, reporting a short write only when fewer than
`int(imageSize)` bytes were written. -/
def sendImage (maxPacketSize index : Nat) (img : Image) (s : DevState) :
    Except CmdError Unit × DevState :=
  if img.boundsMaxX ≠ (ImageSize : Int) ∨ img.boundsMaxY ≠ (ImageSize : Int) then
    (.error .invalidImageSize, s)
  else
    match sendCRTCommand maxPacketSize cmdBAT
        [(toJPEG img).length % 65536 / 256, (toJPEG img).length % 65536 % 256, index] s with
    | (.error e, s') => (.error e, s')
    | (.ok _, s') =>
        match writeContext (toJPEG img) s' with
        | (none, s'') => (.error .transportError, s'')
        | (some n, s'') =>
            if n < (toJPEG img).length % 65536 then
              (.error (.shortWrite n ((toJPEG img).length % 65536)), s'')
            else (.ok (), s'')

/-- Go `SetImage` (lines 420-430): reject a control that is not a display
slot before doing anything else, then upload the image and commit with STP. -/
def SetImage (maxPacketSize : Nat) (display : Control) (img : Image)
    (s : DevState) : Except CmdError Unit × DevState :=
  if !(Control.IsDisplay display) then (.error (.notADisplay display), s)
  else
    match sendImage maxPacketSize display img s with
    | (.error e, s') => (.error e, s')
    | (.ok _, s') => sendCRTCommand maxPacketSize cmdSTP [] s'

/-- Loop body of Go `SetImages` (lines 439-447): `for i, img := range imgs`,
skipping nil entries and uploading slot `i+1` otherwise, aborting on the
first error. -/
def sendImagesLoop (maxPacketSize : Nat) (imgs : List (Option Image)) (i : Nat)
    (s : DevState) : Except CmdError Unit × DevState :=
  match imgs with
  | [] => (.ok (), s)
  | none :: rest => sendImagesLoop maxPacketSize rest (i + 1) s
  | some img :: rest =>
      match sendImage maxPacketSize (i + 1) img s with
      | (.error e, s') => (.error e, s')
      | (.ok _, s') => sendImagesLoop maxPacketSize rest (i + 1) s'

/-- Go `SetImages` (lines 433-450): CLE 0x00 0xFF, then the upload loop,
then STP, aborting on the first error. -/
def SetImages (maxPacketSize : Nat) (imgs : List (Option Image))
    (s : DevState) : Except CmdError Unit × DevState :=
  match sendCRTCommand maxPacketSize cmdCLE [0x00, 0xff] s with
  | (.error e, s') => (.error e, s')
  | (.ok _, s') =>
      match sendImagesLoop maxPacketSize imgs 0 s' with
      | (.error e, s'') => (.error e, s'')
      | (.ok _, s'') => sendCRTCommand maxPacketSize cmdSTP [] s''

/-- Expected outbound writes of the upload loop started at 0-based slot `i`:
for each non-null image, the BAT packet for slot `i+1` followed by the raw
payload bytes. -/
def uploadWrites (maxPacketSize : Nat) (imgs : List (Option Image)) (i : Nat) :
    List (List Nat) :=
  match imgs with
  | [] => []
  | none :: rest => uploadWrites maxPacketSize rest (i + 1)
  | some img :: rest =>
      sendCRTCommandPacket maxPacketSize cmdBAT
          [img.jpeg.length % 65536 / 256, img.jpeg.length % 65536 % 256, i + 1]
        :: img.jpeg :: uploadWrites maxPacketSize rest (i + 1)

/-- Number of non-null entries of the slot array. -/
def countImages (imgs : List (Option Image)) : Nat :=
  match imgs with
  | [] => 0
  | none :: rest => countImages rest
  | some _ :: rest => countImages rest + 1

/-- Sample 64×64 image ("red" in the spec's example). -/
def redImage : Image :=
  { boundsMinX := 0, boundsMinY := 0, boundsMaxX := 64, boundsMaxY := 64,
    jpeg := [1] }

/-- Sample 64×64 image ("blue" in the spec's example). -/
def blueImage : Image :=
  { boundsMinX := 0, boundsMinY := 0, boundsMaxX := 64, boundsMaxY := 64,
    jpeg := [2] }

/-- A 1×1-pixel image, rejected by the bounds check. -/
def badImage : Image :=
  { boundsMinX := 0, boundsMinY := 0, boundsMaxX := 1, boundsMaxY := 1,
    jpeg := [] }

/-- Image whose bounds run from (32,32) to (64,64): 32×32 pixels, yet its
maximum corner is (64, 64). -/
def offsetImage : Image :=
  { boundsMinX := 32, boundsMinY := 32, boundsMaxX := 64, boundsMaxY := 64,
    jpeg := [0xAB] }

/-- A valid-bounds image whose compressed payload is 65541 bytes,
exceeding the 16-bit size field. -/
def oversizedImage : Image :=
  { boundsMinX := 0, boundsMinY := 0, boundsMaxX := 64, boundsMaxY := 64,
    jpeg := List.replicate 65541 7 }

/-- A valid-bounds image whose compressed payload is exactly 65536 bytes, so
its truncated 16-bit size is 0. -/
def bigPayloadImage : Image :=
  { boundsMinX := 0, boundsMinY := 0, boundsMaxX := 64, boundsMaxY := 64,
    jpeg := List.replicate 65536 3 }

/-- Endpoint state that accepts the first write in full and then writes zero
bytes of every later write. -/
def zeroSecondWriteState : DevState :=
  { oracle := fun k => if k = 0 then .accept else .short 0, idx := 0,
    trace := [] }

/-- C1 counterexample: decoding display code `0x01` with raw state byte `0x02`
yields action `TurnedCW` (the literal cast of the state byte), not `Released`,
refuting "Action equals Pressed when the raw state is the active sentinel and
Released otherwise" at the concrete input (0x01, 0x02). -/
theorem newEvent_display_state_two_not_released :
    newEvent 0x01 0x02 = .ok { control := DisplayTopLeft, action := TurnedCW } ∧
    TurnedCW ≠ Released ∧ TurnedCW ≠ Pressed :=
  ⟨rfl, by decide, by decide⟩

/-- C1 (amended): for every raw control code in 0x01..0x06 and every raw state
byte, decoding succeeds and returns the display slot in fixed positional order
(the code is cast numerically, so 0x01 = top-left, ..., 0x06 = bottom-right)
with the raw state byte passed through literally as the action: `Pressed` when
the state is the active sentinel 0x01, `Released` when it is 0x00, and other
state bytes yield the corresponding other `Action` values. -/
theorem newEvent_display_passthrough (c state : Nat)
    (h1 : displayTopLeft ≤ c) (h2 : c ≤ displayBottomRight) :
    newEvent c state = .ok { control := c, action := state } ∧
    Control.IsDisplay c = true ∧
    (state = 0x01 → newEvent c state = .ok { control := c, action := Pressed }) ∧
    (state = 0x00 → newEvent c state = .ok { control := c, action := Released }) := by
  have hmain : newEvent c state = .ok { control := c, action := state } := by
    unfold newEvent
    rw [if_pos ⟨h1, h2⟩]
    rfl
  refine ⟨hmain, ?_, ?_, ?_⟩
  · simp only [Control.IsDisplay, DisplayTopLeft, DisplayBottomRight,
      decide_eq_true_eq]
    exact ⟨h1, h2⟩
  · intro hs
    subst hs
    exact hmain
  · intro hs
    subst hs
    exact hmain

/-- C1 witness: the amended statement instantiated at code 0x03 (top-right)
and state byte 0x05. -/
theorem newEvent_display_passthrough_witness :
    newEvent 0x03 0x05 = .ok { control := 0x03, action := 0x05 } ∧
    Control.IsDisplay 0x03 = true ∧
    (0x05 = 0x01 → newEvent 0x03 0x05 = .ok { control := 0x03, action := Pressed }) ∧
    (0x05 = 0x00 → newEvent 0x03 0x05 = .ok { control := 0x03, action := Released }) :=
  newEvent_display_passthrough 0x03 0x05 (by decide) (by decide)

/-- C2: for every raw state byte, each odd rotation code decodes to
`TurnedCW` and each even one to `TurnedCCW`, with the matching knob:
KnobTop for 0x50/0x51, KnobBottomRight for 0x60/0x61, KnobBottomLeft for
0x90/0x91. The state argument is universally quantified and unused, so the
raw state byte has no influence on the result. -/
theorem newEvent_rotation (state : Nat) :
    newEvent 0x51 state = .ok { control := KnobTop, action := TurnedCW } ∧
    newEvent 0x50 state = .ok { control := KnobTop, action := TurnedCCW } ∧
    newEvent 0x61 state = .ok { control := KnobBottomRight, action := TurnedCW } ∧
    newEvent 0x60 state = .ok { control := KnobBottomRight, action := TurnedCCW } ∧
    newEvent 0x91 state = .ok { control := KnobBottomLeft, action := TurnedCW } ∧
    newEvent 0x90 state = .ok { control := KnobBottomLeft, action := TurnedCCW } :=
  ⟨rfl, rfl, rfl, rfl, rfl, rfl⟩

/-- C3: for every raw control code outside the known set and every raw state
byte, `newEvent` fails with the unknown-control error and the polling step
delivers no event for that report. -/
theorem newEvent_unknown (code state : Nat) (hcode : code < 256)
    (hmem : code ∉ knownHwControlCodes) :
    newEvent code state = .error (.unknownControl code state) ∧
    readEventsStep code state = none := by
  simp only [knownHwControlCodes, List.mem_cons, List.not_mem_nil, or_false,
    not_or] at hmem
  obtain ⟨n1, n2, n3, n4, n5, n6, n7, n8, n9, n10, n11, n12, n13, n14, n15,
    n16, n17, n18⟩ := hmem
  have hmain : newEvent code state = .error (.unknownControl code state) := by
    unfold newEvent
    rw [if_neg (by simp only [displayTopLeft, displayBottomRight]; omega),
      if_neg (by simp only [buttonLeft]; omega),
      if_neg (by simp only [buttonCenter]; omega),
      if_neg (by simp only [buttonRight]; omega),
      if_neg (by simp only [knobTop]; omega),
      if_neg (by simp only [knobBottomLeft]; omega),
      if_neg (by simp only [knobBottomRight]; omega),
      if_neg (by simp only [knobTopCW, knobTopCCW]; omega),
      if_neg (by simp only [knobBottomLeftCW, knobBottomLeftCCW]; omega),
      if_neg (by simp only [knobBottomRightCW, knobBottomRightCCW]; omega)]
  refine ⟨hmain, ?_⟩
  simp only [readEventsStep, hmain]

/-- C3 witness: code 0x07 is outside the known set; decoding fails and the
polling step drops the report. -/
theorem newEvent_unknown_witness :
    newEvent 0x07 0x00 = .error (.unknownControl 0x07 0x00) ∧
    readEventsStep 0x07 0x00 = none :=
  newEvent_unknown 0x07 0x00 (by decide) (by decide)

/-- Helper: the encoded packet always has exactly the endpoint's maximum
packet size, whatever the command and arguments are. -/
theorem sendCRTCommandPacket_length (maxPacketSize : Nat) (cmd args : List Nat) :
    (sendCRTCommandPacket maxPacketSize cmd args).length = maxPacketSize := by
  simp only [sendCRTCommandPacket, List.length_append, List.length_take,
    List.length_replicate, List.length_cons, List.length_nil]
  omega

/-- Helper: a fully accepted write makes `sendCRTCommand` succeed and append
exactly the framed packet to the trace. -/
theorem sendCRTCommand_accept (maxPacketSize : Nat) (cmd args : List Nat)
    (s : DevState) (h : s.oracle s.idx = .accept) :
    sendCRTCommand maxPacketSize cmd args s =
      (.ok (),
        { s with
          idx := s.idx + 1
          trace := s.trace ++ [sendCRTCommandPacket maxPacketSize cmd args] }) := by
  simp [sendCRTCommand, writeContext, h]

/-- Helper: a short write of `n < maxPacketSize` bytes makes `sendCRTCommand`
fail with the short-write error after recording the attempted packet. -/
theorem sendCRTCommand_short (maxPacketSize n : Nat) (cmd args : List Nat)
    (s : DevState) (hn : s.oracle s.idx = .short n) (hlt : n < maxPacketSize) :
    sendCRTCommand maxPacketSize cmd args s =
      (.error (.shortWrite n maxPacketSize),
        { s with
          idx := s.idx + 1
          trace := s.trace ++ [sendCRTCommandPacket maxPacketSize cmd args] }) := by
  have hlen := sendCRTCommandPacket_length maxPacketSize cmd args
  simp [sendCRTCommand, writeContext, hn, hlen, hlt]

/-- Helper: a failing transfer makes `sendCRTCommand` fail with the transport
error after recording the attempted packet. -/
theorem sendCRTCommand_failure (maxPacketSize : Nat) (cmd args : List Nat)
    (s : DevState) (hn : s.oracle s.idx = .fail) :
    sendCRTCommand maxPacketSize cmd args s =
      (.error .transportError,
        { s with
          idx := s.idx + 1
          trace := s.trace ++ [sendCRTCommandPacket maxPacketSize cmd args] }) := by
  simp [sendCRTCommand, writeContext, hn]

/-- C4 counterexample: with maximum packet size 8, framing the command "CLE"
with arguments [1, 2] (framed length 12) does not produce the claimed layout
"CRT 0 0 name 0 0 args zero-filled": the packet is the 8-byte truncation of
the framed bytes instead. -/
theorem sendCRTCommandPacket_layout_fails_when_oversized :
    sendCRTCommandPacket 8 cmdCLE [1, 2] ≠
      ([0x43, 0x52, 0x54] ++ [0, 0] ++ cmdCLE ++ [0, 0] ++ [1, 2]) ++
        List.replicate (8 - (3 + 2 + cmdCLE.length + 2 + 2)) 0 := by
  decide

/-- C4 (amended): whenever the framed bytes ("CRT", two zero bytes, the name,
two zero bytes, the arguments) fit in the outbound endpoint's maximum packet
size, the encoded packet is exactly that layout, left-aligned and zero-filled
to the maximum packet size; the encoded length always equals the maximum
packet size. Encoding is a pure function of (name, args, packet size), so
encoding the same input twice yields identical byte sequences. When the
framed bytes exceed the packet size, the packet is their truncation instead
(see the counterexample). -/
theorem sendCRTCommandPacket_layout (maxPacketSize : Nat) (cmd args : List Nat)
    (h : 3 + 2 + cmd.length + 2 + args.length ≤ maxPacketSize) :
    sendCRTCommandPacket maxPacketSize cmd args =
      ([0x43, 0x52, 0x54] ++ [0, 0] ++ cmd ++ [0, 0] ++ args) ++
        List.replicate (maxPacketSize - (3 + 2 + cmd.length + 2 + args.length)) 0 ∧
    (sendCRTCommandPacket maxPacketSize cmd args).length = maxPacketSize := by
  refine ⟨?_, sendCRTCommandPacket_length maxPacketSize cmd args⟩
  have hlen : ([0x43, 0x52, 0x54] ++ [0, 0] ++ cmd ++ [0, 0] ++ args).length =
      3 + 2 + cmd.length + 2 + args.length := by
    simp only [List.length_append, List.length_cons, List.length_nil]
  unfold sendCRTCommandPacket
  rw [List.take_of_length_le (by omega), hlen]

/-- C4 witness: the amended layout at packet size 32, name "CLE",
arguments [0, 255]. -/
theorem sendCRTCommandPacket_layout_witness :
    sendCRTCommandPacket 32 cmdCLE [0, 255] =
      ([0x43, 0x52, 0x54] ++ [0, 0] ++ cmdCLE ++ [0, 0] ++ [0, 255]) ++
        List.replicate (32 - (3 + 2 + cmdCLE.length + 2 + ([0, 255] : List Nat).length)) 0 ∧
    (sendCRTCommandPacket 32 cmdCLE [0, 255]).length = 32 :=
  sendCRTCommandPacket_layout 32 cmdCLE [0, 255] (by decide)

/-- C5 counterexample: with maximum packet size 8, sending "CLE" with
arguments [1, 2] (framed length 12 > 8) succeeds — no `CommandTooLarge`
error exists anywhere in the code — and the truncated 8-byte packet is
written to the endpoint. -/
theorem sendCRTCommand_no_size_check :
    (sendCRTCommand 8 cmdCLE [1, 2] initState).1 = .ok () ∧
    (sendCRTCommand 8 cmdCLE [1, 2] initState).2.trace =
      [[0x43, 0x52, 0x54, 0, 0, 0x43, 0x4C, 0x45]] :=
  ⟨rfl, rfl⟩

/-- C5 (amended): for every command name and argument list whose framed length
"CRT" + 2 + name + 2 + args exceeds the outbound endpoint's maximum packet
size, the encoder does not fail: with an accepting endpoint the send reports
success and the packet actually written is the silent truncation of the
framed bytes to the first `maxPacketSize` bytes. -/
theorem sendCRTCommand_truncates_oversized (maxPacketSize : Nat)
    (cmd args : List Nat) (s : DevState) (h : s.oracle s.idx = .accept)
    (hover : maxPacketSize < 3 + 2 + cmd.length + 2 + args.length) :
    (sendCRTCommand maxPacketSize cmd args s).1 = .ok () ∧
    (sendCRTCommand maxPacketSize cmd args s).2.trace =
      s.trace ++ [([0x43, 0x52, 0x54] ++ [0, 0] ++ cmd ++ [0, 0] ++ args).take maxPacketSize] := by
  have hpacket : sendCRTCommandPacket maxPacketSize cmd args =
      ([0x43, 0x52, 0x54] ++ [0, 0] ++ cmd ++ [0, 0] ++ args).take maxPacketSize := by
    have hlen : ([0x43, 0x52, 0x54] ++ [0, 0] ++ cmd ++ [0, 0] ++ args).length =
        3 + 2 + cmd.length + 2 + args.length := by
      simp only [List.length_append, List.length_cons, List.length_nil]
    unfold sendCRTCommandPacket
    rw [hlen, Nat.sub_eq_zero_of_le (Nat.le_of_lt hover)]
    simp
  rw [sendCRTCommand_accept maxPacketSize cmd args s h, hpacket]
  exact ⟨rfl, rfl⟩

/-- C5 witness: the amended statement at packet size 8, name "CLE",
arguments [1, 2, 3], starting from the accepting initial state. -/
theorem sendCRTCommand_truncates_oversized_witness :
    (sendCRTCommand 8 cmdCLE [1, 2, 3] initState).1 = .ok () ∧
    (sendCRTCommand 8 cmdCLE [1, 2, 3] initState).2.trace =
      initState.trace ++
        [([0x43, 0x52, 0x54] ++ [0, 0] ++ cmdCLE ++ [0, 0] ++ [1, 2, 3]).take 8] :=
  sendCRTCommand_truncates_oversized 8 cmdCLE [1, 2, 3] initState rfl (by decide)

/-- Helper: with valid bounds and an endpoint accepting the next two writes,
`sendImage` succeeds and appends exactly the BAT packet and the raw payload
to the trace. -/
theorem sendImage_ok_general (maxPacketSize index : Nat) (img : Image)
    (s : DevState) (hx : img.boundsMaxX = 64) (hy : img.boundsMaxY = 64)
    (h0 : s.oracle s.idx = .accept) (h1 : s.oracle (s.idx + 1) = .accept) :
    sendImage maxPacketSize index img s =
      (.ok (),
        { s with
          idx := s.idx + 1 + 1
          trace := s.trace ++
            [sendCRTCommandPacket maxPacketSize cmdBAT
                [img.jpeg.length % 65536 / 256, img.jpeg.length % 65536 % 256, index],
              img.jpeg] }) := by
  have hnl : ¬ img.jpeg.length < img.jpeg.length % 65536 :=
    Nat.not_lt.mpr (Nat.mod_le _ _)
  obtain ⟨o, i, t⟩ := s
  simp only at h0 h1
  rw [sendImage, if_neg (by simp [hx, hy, ImageSize])]
  rw [sendCRTCommand_accept _ _ _ _ h0]
  simp only [toJPEG, writeContext, h1, hnl, if_false, List.append_assoc,
    List.singleton_append, List.cons_append, List.nil_append]

/-- Helper: with every non-null image 64×64-bounded and an endpoint that
accepts every write, the upload loop succeeds and appends exactly the
expected per-slot writes in ascending slot order. -/
theorem sendImagesLoop_ok (maxPacketSize : Nat) (imgs : List (Option Image))
    (i : Nat) (o : Nat → WriteBehavior) (j : Nat) (t : List (List Nat))
    (hvalid : ∀ img : Image, some img ∈ imgs →
      img.boundsMaxX = 64 ∧ img.boundsMaxY = 64)
    (hacc : ∀ k, o k = .accept) :
    sendImagesLoop maxPacketSize imgs i ⟨o, j, t⟩ =
      (.ok (), ⟨o, j + 2 * countImages imgs,
        t ++ uploadWrites maxPacketSize imgs i⟩) := by
  induction imgs generalizing i j t with
  | nil => simp [sendImagesLoop, uploadWrites, countImages]
  | cons hd tl ih =>
    cases hd with
    | none =>
        rw [sendImagesLoop,
          ih (i + 1) j t (fun x hm => hvalid x (List.mem_cons_of_mem _ hm))]
        simp [uploadWrites, countImages]
    | some img =>
        have hb := hvalid img (List.mem_cons_self _ _)
        have hsend := sendImage_ok_general maxPacketSize (i + 1) img ⟨o, j, t⟩
          hb.1 hb.2 (hacc j) (hacc (j + 1))
        have hrest := ih (i + 1) (j + 1 + 1)
          (t ++ [sendCRTCommandPacket maxPacketSize cmdBAT
              [img.jpeg.length % 65536 / 256, img.jpeg.length % 65536 % 256, i + 1],
            img.jpeg])
          (fun x hm => hvalid x (List.mem_cons_of_mem _ hm))
        simp only [sendImagesLoop, hsend, hrest, uploadWrites, countImages]
        simp only [Prod.mk.injEq, DevState.mk.injEq, List.append_assoc,
          List.cons_append, List.nil_append, List.singleton_append, true_and,
          and_true]
        omega

/-- C6 counterexample: with the 1×1 image in slot 1, `SetImages` issues the
CLE command, aborts on the invalid image, and never issues STP, refuting the
claim's universal "finally issues exactly one STP command". -/
theorem SetImages_no_stp_on_invalid_image :
    (SetImages 16 [some badImage, none, none, none, none, none] initState).1 =
      .error .invalidImageSize ∧
    (SetImages 16 [some badImage, none, none, none, none, none] initState).2.trace =
      [sendCRTCommandPacket 16 cmdCLE [0x00, 0xff]] ∧
    sendCRTCommandPacket 16 cmdSTP [] ∉
      (SetImages 16 [some badImage, none, none, none, none, none] initState).2.trace :=
  ⟨rfl, rfl, by decide⟩

/-- C6 (amended): for every array of six image slots whose non-null entries
all pass the 64×64 bounds check, with an endpoint accepting every write,
`SetImages` first issues exactly one CLE command (args 0x00, 0xFF), then
uploads each non-null image via the per-slot path (one BAT packet followed by
the raw payload) in ascending slot order 1..6 skipping null entries, and
finally issues exactly one STP command; if an upload fails, the sequence
aborts at that slot and no STP is issued (see the counterexample). -/
theorem SetImages_sequence (maxPacketSize : Nat) (imgs : List (Option Image))
    (s : DevState) (hlen : imgs.length = 6)
    (hvalid : ∀ img : Image, some img ∈ imgs →
      img.boundsMaxX = 64 ∧ img.boundsMaxY = 64)
    (hacc : ∀ k, s.oracle k = .accept) :
    (SetImages maxPacketSize imgs s).1 = .ok () ∧
    (SetImages maxPacketSize imgs s).2.trace =
      s.trace ++ ([sendCRTCommandPacket maxPacketSize cmdCLE [0x00, 0xff]] ++
        uploadWrites maxPacketSize imgs 0 ++
        [sendCRTCommandPacket maxPacketSize cmdSTP []]) := by
  obtain ⟨o, j, t⟩ := s
  have hacc' : ∀ k, o k = .accept := hacc
  have hcle := sendCRTCommand_accept maxPacketSize cmdCLE [0x00, 0xff]
    ⟨o, j, t⟩ (hacc' j)
  have hloop := sendImagesLoop_ok maxPacketSize imgs 0 o (j + 1)
    (t ++ [sendCRTCommandPacket maxPacketSize cmdCLE [0x00, 0xff]]) hvalid hacc'
  have hstp := sendCRTCommand_accept maxPacketSize cmdSTP []
    ⟨o, j + 1 + 2 * countImages imgs,
      (t ++ [sendCRTCommandPacket maxPacketSize cmdCLE [0x00, 0xff]]) ++
        uploadWrites maxPacketSize imgs 0⟩ (hacc' _)
  simp only [SetImages, hcle, hloop, hstp]
  simp [List.append_assoc]

/-- C6 witness: the spec's own example {red, nil, blue, nil, nil, nil} at
packet size 16 from the accepting initial state. -/
theorem SetImages_sequence_witness :
    (SetImages 16 [some redImage, none, some blueImage, none, none, none]
        initState).1 = .ok () ∧
    (SetImages 16 [some redImage, none, some blueImage, none, none, none]
        initState).2.trace =
      initState.trace ++
        ([sendCRTCommandPacket 16 cmdCLE [0x00, 0xff]] ++
          uploadWrites 16 [some redImage, none, some blueImage, none, none, none] 0 ++
          [sendCRTCommandPacket 16 cmdSTP []]) := by
  refine SetImages_sequence 16 _ initState rfl ?_ (fun k => rfl)
  intro img hm
  simp at hm
  rcases hm with rfl | rfl
  · exact ⟨rfl, rfl⟩
  · exact ⟨rfl, rfl⟩

/-- C7 (code bug): the upload path checks `Bounds().Max`, not the pixel
dimensions. The 32×32-pixel image with bounds (32,32)-(64,64) is not 64×64,
yet `sendImage` accepts it and performs the full transfer (BAT packet and
payload), contradicting both the claim and the code's own error message
"the image must have a size of 64x64 pixels". -/
theorem sendImage_accepts_wrong_dimensions :
    offsetImage.boundsMaxX - offsetImage.boundsMinX = 32 ∧
    offsetImage.boundsMaxY - offsetImage.boundsMinY = 32 ∧
    (32 : Int) ≠ 64 ∧
    (sendImage 16 1 offsetImage initState).1 = .ok () ∧
    (sendImage 16 1 offsetImage initState).2.trace =
      [sendCRTCommandPacket 16 cmdBAT [0, 1, 1], [0xAB]] :=
  ⟨rfl, rfl, by decide, rfl, rfl⟩

/-- C8 counterexample: an image whose compressed payload is 65541 bytes is
uploaded without any `ImageTooLarge` error, and the BAT size field holds the
silently truncated value 5 = 65541 mod 65536 (high byte 0, low byte 5). -/
theorem sendImage_truncated_size_header :
    65535 < oversizedImage.jpeg.length ∧
    (sendImage 16 1 oversizedImage initState).1 = .ok () ∧
    (sendImage 16 1 oversizedImage initState).2.trace.head? =
      some (sendCRTCommandPacket 16 cmdBAT [0, 5, 1]) := by
  have hjl : oversizedImage.jpeg.length = 65541 := by
    rw [show oversizedImage.jpeg = List.replicate 65541 7 from rfl,
      List.length_replicate]
  have h := sendImage_ok_general 16 1 oversizedImage initState rfl rfl rfl rfl
  refine ⟨by rw [hjl]; norm_num, by rw [h], ?_⟩
  rw [h]
  simp only [hjl, initState, List.nil_append, List.head?_cons]

/-- C8 (amended): the compressed length is not validated. For every
valid-bounds image whose payload exceeds 65535 bytes, with an accepting
endpoint, the upload succeeds (no `ImageTooLarge` error exists in the code)
and the BAT size field carries the payload length reduced modulo 65536 — a
silently truncated value different from the true length. -/
theorem sendImage_size_field_mod (maxPacketSize index : Nat) (img : Image)
    (s : DevState) (hx : img.boundsMaxX = 64) (hy : img.boundsMaxY = 64)
    (h0 : s.oracle s.idx = .accept) (h1 : s.oracle (s.idx + 1) = .accept)
    (hbig : 65535 < img.jpeg.length) :
    (sendImage maxPacketSize index img s).1 = .ok () ∧
    (sendImage maxPacketSize index img s).2.trace = s.trace ++
      [sendCRTCommandPacket maxPacketSize cmdBAT
          [img.jpeg.length % 65536 / 256, img.jpeg.length % 65536 % 256, index],
        img.jpeg] ∧
    img.jpeg.length % 65536 ≠ img.jpeg.length := by
  have h := sendImage_ok_general maxPacketSize index img s hx hy h0 h1
  refine ⟨by rw [h], by rw [h], by omega⟩

/-- C8 witness: the amended statement at slot 2, the 65541-byte payload and
the accepting initial state. -/
theorem sendImage_size_field_mod_witness :
    (sendImage 16 2 oversizedImage initState).1 = .ok () ∧
    (sendImage 16 2 oversizedImage initState).2.trace = initState.trace ++
      [sendCRTCommandPacket 16 cmdBAT
          [oversizedImage.jpeg.length % 65536 / 256,
            oversizedImage.jpeg.length % 65536 % 256, 2],
        oversizedImage.jpeg] ∧
    oversizedImage.jpeg.length % 65536 ≠ oversizedImage.jpeg.length :=
  sendImage_size_field_mod 16 2 oversizedImage initState rfl rfl rfl rfl
    (by rw [show oversizedImage.jpeg = List.replicate 65541 7 from rfl,
          List.length_replicate]
        norm_num)

/-- Helper: a partial payload write whose count is not below the truncated
16-bit size passes the check, so `sendImage` reports success. -/
theorem sendImage_payload_short_check (maxPacketSize index n : Nat)
    (img : Image) (s : DevState)
    (hx : img.boundsMaxX = 64) (hy : img.boundsMaxY = 64)
    (h0 : s.oracle s.idx = .accept) (h1 : s.oracle (s.idx + 1) = .short n)
    (hge : ¬ n < img.jpeg.length % 65536) :
    (sendImage maxPacketSize index img s).1 = .ok () := by
  rw [sendImage, if_neg (by simp [hx, hy, ImageSize])]
  rw [sendCRTCommand_accept _ _ _ _ h0]
  simp [toJPEG, writeContext, h1, hge]

/-- C9 counterexample: for the 65536-byte payload, the truncated 16-bit size
is 0, so a partial payload write of 0 of 65536 bytes passes the
`n < int(imageSize)` check and `sendImage` reports success instead of a
`ShortWrite` error. -/
theorem sendImage_short_payload_write_undetected :
    bigPayloadImage.jpeg.length = 65536 ∧
    (sendImage 16 1 bigPayloadImage zeroSecondWriteState).1 = .ok () := by
  have hjl : bigPayloadImage.jpeg.length = 65536 := by
    rw [show bigPayloadImage.jpeg = List.replicate 65536 3 from rfl,
      List.length_replicate]
  refine ⟨hjl, ?_⟩
  refine sendImage_payload_short_check 16 1 0 bigPayloadImage
    zeroSecondWriteState rfl rfl rfl rfl ?_
  rw [hjl]
  norm_num

/-- C9 (amended): partial writes surface `ShortWrite` and abort before any
dependent follow-up write — provided the payload length fits in 16 bits,
because the payload check compares against the truncated `uint16` size (see
the counterexample). Concretely, for a valid-bounds image: a short or failing
BAT command write aborts `sendImage` with only the BAT packet attempted (no
payload bytes are written), a short command-packet write surfaces
`ShortWrite` from `sendCRTCommand`, and a short payload write surfaces
`ShortWrite` whenever the payload length is at most 65535. -/
theorem shortWrite_aborts (maxPacketSize index n : Nat) (cmd args : List Nat)
    (img : Image) (s : DevState)
    (hx : img.boundsMaxX = 64) (hy : img.boundsMaxY = 64) :
    (s.oracle s.idx = .short n → n < maxPacketSize →
      (sendCRTCommand maxPacketSize cmd args s).1 =
        .error (.shortWrite n maxPacketSize)) ∧
    (s.oracle s.idx = .short n → n < maxPacketSize →
      (sendImage maxPacketSize index img s).1 =
        .error (.shortWrite n maxPacketSize) ∧
      (sendImage maxPacketSize index img s).2.trace = s.trace ++
        [sendCRTCommandPacket maxPacketSize cmdBAT
            [img.jpeg.length % 65536 / 256, img.jpeg.length % 65536 % 256, index]]) ∧
    (s.oracle s.idx = .fail →
      (sendImage maxPacketSize index img s).1 = .error .transportError ∧
      (sendImage maxPacketSize index img s).2.trace = s.trace ++
        [sendCRTCommandPacket maxPacketSize cmdBAT
            [img.jpeg.length % 65536 / 256, img.jpeg.length % 65536 % 256, index]]) ∧
    (s.oracle s.idx = .accept → s.oracle (s.idx + 1) = .short n →
      n < img.jpeg.length → img.jpeg.length ≤ 65535 →
      (sendImage maxPacketSize index img s).1 =
        .error (.shortWrite n img.jpeg.length)) := by
  refine ⟨?_, ?_, ?_, ?_⟩
  · intro hn hlt
    rw [sendCRTCommand_short maxPacketSize n cmd args s hn hlt]
  · intro hn hlt
    constructor
    · rw [sendImage, if_neg (by simp [hx, hy, ImageSize])]
      rw [sendCRTCommand_short maxPacketSize n cmdBAT _ s hn hlt]
    · rw [sendImage, if_neg (by simp [hx, hy, ImageSize])]
      rw [sendCRTCommand_short maxPacketSize n cmdBAT _ s hn hlt]
      rfl
  · intro hn
    constructor
    · rw [sendImage, if_neg (by simp [hx, hy, ImageSize])]
      rw [sendCRTCommand_failure maxPacketSize cmdBAT _ s hn]
    · rw [sendImage, if_neg (by simp [hx, hy, ImageSize])]
      rw [sendCRTCommand_failure maxPacketSize cmdBAT _ s hn]
      rfl
  · intro h0 h1 hlt hle
    have hmod : img.jpeg.length % 65536 = img.jpeg.length :=
      Nat.mod_eq_of_lt (by omega)
    rw [sendImage, if_neg (by simp [hx, hy, ImageSize])]
    rw [sendCRTCommand_accept _ _ _ _ h0]
    simp only [toJPEG, writeContext, h1, hmod]
    rw [if_pos hlt]

/-- C9 witness: the amended statement at packet size 16, slot 1, a one-byte
payload, write count 0, from a state whose oracle accepts the first write and
then writes zero bytes. -/
theorem shortWrite_aborts_witness :
    (zeroSecondWriteState.oracle zeroSecondWriteState.idx = .short 0 → 0 < 16 →
      (sendCRTCommand 16 cmdCLE [0x00, 0xff] zeroSecondWriteState).1 =
        .error (.shortWrite 0 16)) ∧
    (zeroSecondWriteState.oracle zeroSecondWriteState.idx = .short 0 → 0 < 16 →
      (sendImage 16 1 redImage zeroSecondWriteState).1 =
        .error (.shortWrite 0 16) ∧
      (sendImage 16 1 redImage zeroSecondWriteState).2.trace =
        zeroSecondWriteState.trace ++
        [sendCRTCommandPacket 16 cmdBAT
            [redImage.jpeg.length % 65536 / 256,
              redImage.jpeg.length % 65536 % 256, 1]]) ∧
    (zeroSecondWriteState.oracle zeroSecondWriteState.idx = .fail →
      (sendImage 16 1 redImage zeroSecondWriteState).1 = .error .transportError ∧
      (sendImage 16 1 redImage zeroSecondWriteState).2.trace =
        zeroSecondWriteState.trace ++
        [sendCRTCommandPacket 16 cmdBAT
            [redImage.jpeg.length % 65536 / 256,
              redImage.jpeg.length % 65536 % 256, 1]]) ∧
    (zeroSecondWriteState.oracle zeroSecondWriteState.idx = .accept →
      zeroSecondWriteState.oracle (zeroSecondWriteState.idx + 1) = .short 0 →
      0 < redImage.jpeg.length → redImage.jpeg.length ≤ 65535 →
      (sendImage 16 1 redImage zeroSecondWriteState).1 =
        .error (.shortWrite 0 redImage.jpeg.length)) :=
  shortWrite_aborts 16 1 0 cmdCLE [0x00, 0xff] redImage zeroSecondWriteState
    rfl rfl

/-- C10: for every control value that is not one of the six display slots and
every image, `SetImage` rejects the control with an error identifying it as
not a display, leaving the device state — in particular the write trace —
completely untouched: no BAT command and no payload bytes are attempted. -/
theorem SetImage_rejects_non_display (maxPacketSize : Nat) (c : Control)
    (img : Image) (s : DevState) (h : Control.IsDisplay c = false) :
    SetImage maxPacketSize c img s = (.error (.notADisplay c), s) := by
  simp [SetImage, h]

/-- C10 witness: `ButtonLeft` is not a display; `SetImage` rejects it and
leaves the initial state unchanged. -/
theorem SetImage_rejects_non_display_witness :
    SetImage 16 ButtonLeft redImage initState =
      (.error (.notADisplay ButtonLeft), initState) :=
  SetImage_rejects_non_display 16 ButtonLeft redImage initState (by decide)

end Strmctrl
